import Mathlib

/-!
Verification of the cosmos-gesture-intention-detection pipeline.

This file gives a shallow embedding, in Lean 4, of the pure decision logic of
the repository's Python sources:

  * `scripts/train_student.py`   — feature encoding, label distillation from
    verifier logs, the calibration regression gate, and registry versioning;
  * `scripts/build_calibration.py` — the calibration-set selection rule and
    the clip index merged by clip id;
  * `scripts/eval_cosmos.py`     — clip loading for the evaluation harness;
  * `student/service.py`         — the serving runtime's predict/status
    endpoints, shadow/active modes and the degraded (no-model) path.

Python floats are modelled as rationals (`ℚ`), JSON dictionaries as
association lists, and nullable/absent JSON fields as `Option`.
-/

/-- A JSON feature bag: a finite map from feature names to numeric values,
modelled as an association list (insertion order preserved, first match wins
on lookup, as for a Python dict read). -/
abbrev FeatureBag := List (String × ℚ)

/-- Python `d.get(k, dflt)` on a numeric dict. -/
def pyDictGet (d : FeatureBag) (k : String) (dflt : ℚ) : ℚ :=
  match d.find? (fun p => p.1 == k) with
  | some p => p.2
  | none => dflt

/-- Python `s.startswith(pre)`, modelled on the character lists so that it
evaluates by kernel reduction. -/
def strStartsWith (s pre : String) : Bool :=
  pre.data.isPrefixOf s.data

/-- Python `a or b` on optional strings: `a` if present and non-empty
(truthy), else `b`. -/
def pyOrStr (a : Option String) (b : Option String) : Option String :=
  match a with
  | some s => if s.data.isEmpty then b else some s
  | none => b

namespace TrainStudent

/-- List `FEATURE_NAMES` of `scripts/train_student.py`. -/
def FEATURE_NAMES : List String :=
  ["swipeDisplacement", "swipeDuration", "peakVelocity",
   "fingersExtended", "handSide", "handSpan",
   "wristX", "wristY", "palmFacing",
   "wristVelocityX", "wristVelocityY", "stateConfidence"]

/-- List `GESTURE_TYPES` of `scripts/train_student.py`. -/
def GESTURE_TYPES : List String :=
  ["OPEN_MENU", "CLOSE_MENU", "SWITCH_RIGHT", "SWITCH_LEFT"]

/-- Constant `REGRESS_LIMIT` of `scripts/train_student.py`. -/
def REGRESS_LIMIT : ℚ := 2/100

/-- Function `features_to_row` of `scripts/train_student.py`: 12 named features read
with default 0.0, then a one-hot encoding over the 4 gesture types. -/
def features_to_row (features : FeatureBag) (gesture_type : String) : List ℚ :=
  (FEATURE_NAMES.map (fun n => pyDictGet features n 0)) ++
  (GESTURE_TYPES.map (fun g => if gesture_type == g then 1 else 0))

end TrainStudent

namespace StudentService

/-- List `FEATURE_NAMES` of `student/service.py` (duplicated there verbatim). -/
def FEATURE_NAMES : List String :=
  ["swipeDisplacement", "swipeDuration", "peakVelocity",
   "fingersExtended", "handSide", "handSpan",
   "wristX", "wristY", "palmFacing",
   "wristVelocityX", "wristVelocityY", "stateConfidence"]

/-- List `GESTURE_TYPES` of `student/service.py`. -/
def GESTURE_TYPES : List String :=
  ["OPEN_MENU", "CLOSE_MENU", "SWITCH_RIGHT", "SWITCH_LEFT"]

/-- Function `_features_to_vector` of `student/service.py` (the numpy reshape to a
1×16 row matrix does not change the vector's contents). -/
def features_to_vector (features : FeatureBag) (gesture_type : String) : List ℚ :=
  (FEATURE_NAMES.map (fun n => pyDictGet features n 0)) ++
  (GESTURE_TYPES.map (fun g => if gesture_type == g then 1 else 0))

end StudentService

namespace TrainStudent

/-- Outcome of the calibration-set loading in `main` of
`scripts/train_student.py` as seen by the regression check:
`noCalib` when `load_calibration()` returned `(None, None)` (file absent or
empty); otherwise the candidate's calibration accuracy (`calib_acc_new`) and,
when `models/student/current_model.joblib` exists, the current model's
calibration accuracy (`calib_acc_old`). -/
inductive CalibCheck where
  | noCalib : CalibCheck
  | calib (acc_new : ℚ) (acc_old : Option ℚ) : CalibCheck
deriving DecidableEq, Repr

/-- Regression-gate decision in `main` of `scripts/train_student.py`:
`false` exactly when the script prints the regression warning and leaves via
`sys.exit(0)` before the save section, i.e. when a calibration set and a
current model both exist and `calib_acc_new < calib_acc_old - REGRESS_LIMIT`. -/
def publishes : CalibCheck → Bool
  | .noCalib => true
  | .calib _ none => true
  | .calib acc_new (some acc_old) => !(decide (acc_new < acc_old - REGRESS_LIMIT))

/-- Model bundle metadata written by `main` of `scripts/train_student.py`
(the fitted classifier itself is abstracted as an opaque numeric id). -/
structure ModelBundle where
  version : Nat
  model_id : Nat
  num_samples : Nat
  test_accuracy : ℚ
  calib_accuracy : Option ℚ
deriving DecidableEq, Repr

/-- One audit record appended to `models/student/training_log.json`. -/
structure TrainLogEntry where
  version : Nat
  num_samples : Nat
  test_accuracy : ℚ
  calib_accuracy : Option ℚ
  calib_acc_old : Option ℚ
deriving DecidableEq, Repr

/-- The on-disk model registry: the versioned artifacts
`v{N}_model.joblib` in creation order, the `current_model.joblib` slot, and
the parsed contents of `training_log.json`. -/
structure Registry where
  versioned : List ModelBundle
  current : Option ModelBundle
  training_log : List TrainLogEntry
deriving DecidableEq, Repr

/-- The empty `models/student/` directory. -/
def Registry.empty : Registry :=
  { versioned := [], current := none, training_log := [] }

/-- Inputs of one training run that reached the regression check: the gate's
view of the calibration accuracies, plus the data recorded into the bundle. -/
structure RunInput where
  check : CalibCheck
  model_id : Nat
  num_samples : Nat
  test_accuracy : ℚ
deriving DecidableEq, Repr

/-- Value `calib_acc_new` as stored in the bundle (`None` without a calibration set). -/
def calibAccOf : CalibCheck → Option ℚ
  | .noCalib => none
  | .calib acc_new _ => some acc_new

/-- Value `calib_acc_old` as stored in the audit record. -/
def calibAccOldOf : CalibCheck → Option ℚ
  | .noCalib => none
  | .calib _ acc_old => acc_old

/-- Function `next_version_num` of `scripts/train_student.py`: count of existing
`v*_model.joblib` artifacts plus one. -/
def next_version_num (s : Registry) : Nat :=
  s.versioned.length + 1

/-- Tail of `main` of `scripts/train_student.py` from the regression check
on: when the gate blocks, nothing is written and the process exits with
status 0; otherwise the versioned artifact is written, `current` is
replaced, one audit record is appended to the training log, and the process
ends normally (exit status 0). Returns the updated registry and the exit
status. -/
def train_run (run : RunInput) (s : Registry) : Registry × Nat :=
  if publishes run.check then
    let v := next_version_num s
    let b : ModelBundle :=
      { version := v, model_id := run.model_id, num_samples := run.num_samples,
        test_accuracy := run.test_accuracy, calib_accuracy := calibAccOf run.check }
    let e : TrainLogEntry :=
      { version := v, num_samples := run.num_samples,
        test_accuracy := run.test_accuracy, calib_accuracy := calibAccOf run.check,
        calib_acc_old := calibAccOldOf run.check }
    ({ versioned := s.versioned ++ [b], current := some b,
       training_log := s.training_log ++ [e] }, 0)
  else
    (s, 0)

/-- A sequence of training runs starting from a registry state. -/
def runAll (rs : List RunInput) (s : Registry) : Registry :=
  rs.foldl (fun s r => (train_run r s).1) s

end TrainStudent

/-- An eval clip as read from `data/eval/clips/` or a session bundle:
identity, the optional feature bag, and the optional detected gesture.
`features = none` models an absent/null field and `some []` an empty dict;
both are falsy in the Python feature check. -/
structure EvalClip where
  clip_id : String
  features : Option FeatureBag
  gesture_detected : Option String
deriving Repr

/-- One JSON clip file: either a single clip object or an array of clips. -/
inductive ClipJson where
  | single (c : EvalClip) : ClipJson
  | array (cs : List EvalClip) : ClipJson

/-- Clips contributed by one file in `load_clips` of `scripts/eval_cosmos.py`
and in the `clip_*.json` branch of `load_clips_by_id` of
`scripts/build_calibration.py`: a list is spliced, a single object appended. -/
def clipsOfFile : ClipJson → List EvalClip
  | .single c => [c]
  | .array cs => cs

/-- Clips contributed by one session file in `load_clips_by_id` of
`scripts/build_calibration.py`: only `isinstance(data, list)` is handled
there, so a single-object session file contributes nothing. -/
def clipsOfSessionFile : ClipJson → List EvalClip
  | .single _ => []
  | .array cs => cs

namespace EvalCosmos

/-- Function `load_clips` of `scripts/eval_cosmos.py` without the `--clips` override:
clips from sorted `clip_*.json` files followed by clips from sorted
`eval_session_*.json` files, concatenated in order. -/
def load_clips (clipFiles : List ClipJson) (sessionFiles : List ClipJson) : List EvalClip :=
  (clipFiles.map clipsOfFile).flatten ++ (sessionFiles.map clipsOfFile).flatten

end EvalCosmos

/-- Python dict assignment `d[k] = v` on an association list: replace the
value in place if the key exists, else append the pair. -/
def dictInsert (d : List (String × EvalClip)) (k : String) (v : EvalClip) :
    List (String × EvalClip) :=
  match d with
  | [] => [(k, v)]
  | (k', v') :: t => if k' == k then (k', v) :: t else (k', v') :: dictInsert t k v

/-- Python `d.get(k)` on the clip index. -/
def dictLookup (d : List (String × EvalClip)) (k : String) : Option EvalClip :=
  (d.find? (fun p => p.1 == k)).map (fun p => p.2)

namespace BuildCalibration

/-- Function `load_clips_by_id` of `scripts/build_calibration.py`: a dict from
`clip_id` to clip, built by inserting every clip of every `clip_*.json`
file, then every clip of every (array-shaped) session file, in order —
later insertions overwrite earlier ones bearing the same id. -/
def load_clips_by_id (clipFiles : List ClipJson) (sessionFiles : List ClipJson) :
    List (String × EvalClip) :=
  ((clipFiles.map clipsOfFile).flatten ++ (sessionFiles.map clipsOfSessionFile).flatten).foldl
    (fun d c => dictInsert d c.clip_id c) []

/-- Set `TP_LABELS` of `scripts/build_calibration.py`. -/
def TP_LABELS : List String :=
  ["TP_OPEN_MENU", "TP_CLOSE_MENU", "TP_SWITCH_RIGHT", "TP_SWITCH_LEFT"]

/-- Mapping `LABEL_TO_INTENT` of `scripts/build_calibration.py`. -/
def LABEL_TO_INTENT : List (String × String) :=
  [("TP_OPEN_MENU", "OPEN_MENU"),
   ("TP_CLOSE_MENU", "CLOSE_MENU"),
   ("TP_SWITCH_RIGHT", "SWITCH_RIGHT"),
   ("TP_SWITCH_LEFT", "SWITCH_LEFT")]

/-- Lookup `LABEL_TO_INTENT[user_label]`; the `""` default is unreachable in
`main` because the lookup is guarded by `user_label in TP_LABELS`, which is
exactly the key set. -/
def lookupIntent (l : String) : String :=
  ((LABEL_TO_INTENT.find? (fun p => p.1 == l)).map (fun p => p.2)).getD ""

/-- One entry of `data/eval/results/eval_results.json` as read by
`scripts/build_calibration.py`; `Option` fields model JSON null/absent. -/
structure EvalResult where
  clip_id : String
  user_label : String
  cosmos_intentional : Option Bool
  cosmos_final_intent : Option String
  cosmos_error : Bool
deriving Repr

/-- One line written to `data/calibration/calibration.jsonl`. -/
structure CalibRecord where
  clip_id : String
  features : FeatureBag
  gesture_type : String
  label : Nat
  user_label : String
  cosmos_intent : Option String
deriving Repr

/-- The four per-result outcomes counted by `main` of
`scripts/build_calibration.py`. -/
inductive CalibOutcome where
  | accepted (rec : CalibRecord) : CalibOutcome
  | teacherError : CalibOutcome
  | disagreement : CalibOutcome
  | missingFeatures : CalibOutcome
deriving Repr

/-- Python truthiness of `clip.get("features")`: present and non-empty. -/
def featuresTruthy : Option FeatureBag → Bool
  | none => false
  | some fs => !fs.isEmpty

/-- The agreement branch of the `for r in results` loop in `main` of
`scripts/build_calibration.py` (the `if is_tp / elif is_neg / else` chain):
`none` when the iteration hits a `continue` counted as a disagreement,
otherwise the assigned `(label_int, gesture_type)` pair. `clips_by_id` is
the clip index; a missing clip behaves as Python's `clips_by_id.get(...)`
default `{}`, whose `.get("gesture_detected")` yields `None`. -/
def branch_label (clips_by_id : String → Option EvalClip) (r : EvalResult) :
    Option (Nat × String) :=
  let is_tp := decide (r.user_label ∈ TP_LABELS)
  let is_neg := strStartsWith r.user_label "NEG_"
  if is_tp then
    let expected_intent := lookupIntent r.user_label
    if r.cosmos_intentional == some true &&
       r.cosmos_final_intent == some expected_intent then
      some (1, expected_intent)
    else none
  else if is_neg then
    if r.cosmos_intentional == some false then
      let gd := (clips_by_id r.clip_id).bind (fun c => c.gesture_detected)
      some (0, (pyOrStr gd (some "SWITCH_RIGHT")).getD "SWITCH_RIGHT")
    else none
  else none

/-- The body of the `for r in results` loop in `main` of
`scripts/build_calibration.py`, deciding one result's outcome: the
teacher-error skip, then the agreement branch (`branch_label`), then the
required-features check. -/
def process_result (clips_by_id : String → Option EvalClip) (r : EvalResult) :
    CalibOutcome :=
  if r.cosmos_error then .teacherError
  else
    match branch_label clips_by_id r with
    | none => .disagreement
    | some (label_int, gesture_type) =>
      match clips_by_id r.clip_id with
      | none => .missingFeatures
      | some clip =>
        if featuresTruthy clip.features then
          .accepted
            { clip_id := r.clip_id, features := clip.features.getD [],
              gesture_type := gesture_type, label := label_int,
              user_label := r.user_label,
              cosmos_intent := r.cosmos_final_intent }
        else .missingFeatures

/-- Whether a result's clip has a usable (truthy) feature bag. -/
def featOK (clips_by_id : String → Option EvalClip) (r : EvalResult) : Bool :=
  match clips_by_id r.clip_id with
  | none => false
  | some clip => featuresTruthy clip.features

/-- Predicates classifying a `CalibOutcome`, used for the outcome counters. -/
def isAccepted : CalibOutcome → Bool
  | .accepted _ => true
  | _ => false

/-- Predicate for the teacher-error counter. -/
def isTeacherError : CalibOutcome → Bool
  | .teacherError => true
  | _ => false

/-- Predicate for the disagreement counter. -/
def isDisagreement : CalibOutcome → Bool
  | .disagreement => true
  | _ => false

/-- Predicate for the missing-features counter. -/
def isMissingFeatures : CalibOutcome → Bool
  | .missingFeatures => true
  | _ => false

end BuildCalibration

namespace TrainStudent

/-- The teacher's `response_json` as embedded in a verifier log record and
read by `load_labeled_events` of `scripts/train_student.py`; `Option`
fields model absent keys. -/
structure RespJson where
  schema_valid : Option Bool
  confidence : Option ℚ
  reason_category : Option String
  intentional : Option Bool
  final_intent : Option String
deriving Repr

/-- The feature bag of a verifier log record: the numeric features plus the
string-valued `gestureType` key, split out since `load_labeled_events` reads
it separately. -/
structure LogFeatures where
  entries : FeatureBag
  gestureType : Option String
deriving Repr

/-- Python truthiness of the `features` dict of a log record. -/
def logFeaturesTruthy : Option LogFeatures → Bool
  | none => false
  | some fs => !(fs.entries.isEmpty && fs.gestureType.isNone)

/-- One parsed line of a `verifier_events.jsonl` log as read by
`load_labeled_events` (malformed lines never reach this point). A missing or
null `response_json` is `none`; `record.get("response_json") or {}` then
yields the empty dict, which is falsy like `none`. -/
structure VerifierRecord where
  response_json : Option RespJson
  features : Option LogFeatures
  proposed_intent : Option String
  event_id : String
deriving Repr

/-- A labeled event appended to `events` by `load_labeled_events`. -/
structure LabeledEvent where
  features : LogFeatures
  gesture_type : String
  label : Nat
  cosmos_conf : ℚ
  reason : String
  event_id : String
deriving Repr

/-- Outcome of one loop iteration of `load_labeled_events`. -/
inductive DistillOutcome where
  | accepted (e : LabeledEvent) : DistillOutcome
  | skipped : DistillOutcome
deriving Repr

/-- The per-record body of `load_labeled_events` of
`scripts/train_student.py`: require a truthy feature bag and a truthy
response; require `schema_valid` (defaulting to true when absent); apply the
quality filters (confidence ≥ 0.75, reason ≠ "unknown", `intentional` and
gesture type present); the label is `int(bool(intentional))`. -/
def process_record (rec : VerifierRecord) : DistillOutcome :=
  if !(logFeaturesTruthy rec.features) || rec.response_json.isNone then .skipped
  else
    let resp := rec.response_json.getD
      { schema_valid := none, confidence := none, reason_category := none,
        intentional := none, final_intent := none }
    if resp.schema_valid.getD true = false then .skipped
    else
      let cosmos_conf := resp.confidence.getD 0
      let reason := resp.reason_category.getD "unknown"
      let intentional := resp.intentional
      let fs := rec.features.getD { entries := [], gestureType := none }
      let gesture_type := pyOrStr fs.gestureType rec.proposed_intent
      if cosmos_conf < (75 : ℚ)/100 then .skipped
      else if reason == "unknown" then .skipped
      else
        match intentional, gesture_type with
        | none, _ => .skipped
        | _, none => .skipped
        | some b, some g =>
          .accepted
            { features := fs, gesture_type := g,
              label := if b then 1 else 0,
              cosmos_conf := cosmos_conf, reason := reason,
              event_id := rec.event_id }

end TrainStudent

namespace StudentService

/-- An in-memory student classifier: the scikit-learn model abstracted as its
binary verdict and its per-class probability vector on an encoded row. -/
structure StudentModel where
  predictFn : List ℚ → Bool
  predictProbaFn : List ℚ → List ℚ

/-- The model slot after `_load_model_if_needed` has run: the classifier and
the bundle's version string, or `none` when `current_model.joblib` is
absent. -/
structure LoadedModel where
  model : StudentModel
  version : String

/-- In-process serving state: the (lazily reloaded) model slot, the mode
fixed at startup from `STUDENT_MODE`, and the `_total_preds` counter. -/
structure ServiceState where
  model : Option LoadedModel
  mode : String
  total_preds : Nat

/-- Python `max(probs)` for a non-empty probability list; `predict_proba`
always returns at least one class (Python `max` raises on an empty list, a
case that cannot arise). -/
def pyMax : List ℚ → ℚ
  | [] => 0
  | h :: t => t.foldl max h

/-- Python `round(x, 3)` modelled as rounding to the nearest multiple of
1/1000 (round-half-up; Python's half-to-even tie break differs only at exact
half-thousandth values). -/
def round3 (q : ℚ) : ℚ :=
  (round (q * 1000) : ℤ) / 1000

/-- The JSON body of a `/predict` response. -/
structure PredictResponse where
  execute : Bool
  confidence : ℚ
  model_version : Option String
  mode : String
deriving Repr, DecidableEq

/-- The JSON body of a `/predict` request; `type` is `none` when absent
(`body.get("type", "SWITCH_RIGHT")` then supplies the default). -/
structure PredictBody where
  features : FeatureBag
  type : Option String
deriving Repr

/-- The `/predict` handler of `student/service.py`, after
`_load_model_if_needed` has resolved the model slot recorded in the state:
degraded response when no model is loaded (counter untouched), otherwise
encode, predict, bump `_total_preds`, and force `execute = true` unless the
mode is "active". -/
def predict_route (st : ServiceState) (body : PredictBody) :
    PredictResponse × ServiceState :=
  let gesture_type := body.type.getD "SWITCH_RIGHT"
  match st.model with
  | none =>
    ({ execute := true, confidence := 0, model_version := none, mode := st.mode }, st)
  | some lm =>
    let x := features_to_vector body.features gesture_type
    let pred := lm.model.predictFn x
    let conf := pyMax (lm.model.predictProbaFn x)
    let st' : ServiceState :=
      { model := st.model, mode := st.mode, total_preds := st.total_preds + 1 }
    let ex := if st.mode == "active" then pred else true
    ({ execute := ex, confidence := round3 conf,
       model_version := some lm.version, mode := st.mode }, st')

/-- The JSON body of a `/status` response. -/
structure StatusResponse where
  model_loaded : Bool
  model_version : Option String
  mode : String
  total_predictions : Nat
deriving Repr, DecidableEq

/-- The `/status` handler of `student/service.py` (again after the lazy
reload): reports the state and leaves `_total_preds` unchanged. -/
def status_route (st : ServiceState) : StatusResponse × ServiceState :=
  ({ model_loaded := st.model.isSome,
     model_version := st.model.map (fun lm => lm.version),
     mode := st.mode, total_predictions := st.total_preds }, st)

end StudentService

lemma pyDictGet_eq_default (d : FeatureBag) (k : String) (dflt : ℚ)
    (h : d.find? (fun p => p.1 == k) = none) : pyDictGet d k dflt = dflt := by
  unfold pyDictGet
  rw [h]

/-- C4: for every feature bag and gesture-type string, the encoder returns a
vector of constant length 16 (12 named features then the 4-slot one-hot),
the training-side and serving-side encoders compute the same function, a
named feature missing from the bag contributes 0.0 at its position, and a
gesture type outside the known enum yields an all-zero one-hot segment. -/
theorem C4_feature_codec_total (features : FeatureBag) (gesture_type : String) :
    (TrainStudent.features_to_row features gesture_type).length = 16 ∧
    StudentService.features_to_vector features gesture_type =
      TrainStudent.features_to_row features gesture_type ∧
    (∀ i, i < 12 →
      features.find? (fun p => p.1 == TrainStudent.FEATURE_NAMES.getD i "") = none →
      (TrainStudent.features_to_row features gesture_type).getD i 0 = 0) ∧
    (gesture_type ∉ TrainStudent.GESTURE_TYPES →
      (TrainStudent.features_to_row features gesture_type).drop 12 = [0, 0, 0, 0]) := by
  refine ⟨?_, rfl, ?_, ?_⟩
  · simp [TrainStudent.features_to_row, TrainStudent.FEATURE_NAMES,
      TrainStudent.GESTURE_TYPES]
  · intro i hi h
    interval_cases i <;>
      simp only [TrainStudent.features_to_row, TrainStudent.FEATURE_NAMES,
        TrainStudent.GESTURE_TYPES, List.map_cons, List.map_nil, List.cons_append,
        List.nil_append, List.getD_cons_zero, List.getD_cons_succ] at h ⊢ <;>
      exact pyDictGet_eq_default _ _ _ h
  · intro h
    simp only [TrainStudent.GESTURE_TYPES, List.mem_cons, List.not_mem_nil,
      or_false, not_or] at h
    obtain ⟨h1, h2, h3, h4⟩ := h
    simp [TrainStudent.features_to_row, TrainStudent.FEATURE_NAMES,
      TrainStudent.GESTURE_TYPES, h1, h2, h3, h4]

/-- Witness for C4 at a concrete input: a bag holding only `handSpan` and the
unknown gesture type `"WAVE"`. -/
theorem C4_feature_codec_total_witness :
    (TrainStudent.features_to_row [("handSpan", 1/2)] "WAVE").getD 0 0 = 0 ∧
    (TrainStudent.features_to_row [("handSpan", 1/2)] "WAVE").drop 12 = [0, 0, 0, 0] :=
  ⟨(C4_feature_codec_total [("handSpan", 1/2)] "WAVE").2.2.1 0 (by decide) (by decide),
   (C4_feature_codec_total [("handSpan", 1/2)] "WAVE").2.2.2 (by decide)⟩

/-- C1: with no calibration set the candidate is accepted unconditionally;
with a calibration set and a current model, publication is blocked iff
`calib_acc_new < calib_acc_old - 0.02`; a blocked run writes nothing and
exits with status 0; 0.87 against a current 0.90 is rejected and 0.89 is
accepted. -/
theorem C1_regression_gate :
    TrainStudent.publishes TrainStudent.CalibCheck.noCalib = true ∧
    (∀ acc_new acc_old : ℚ,
      TrainStudent.publishes
          (TrainStudent.CalibCheck.calib acc_new (some acc_old)) = false ↔
        acc_new < acc_old - TrainStudent.REGRESS_LIMIT) ∧
    (∀ (run : TrainStudent.RunInput) (s : TrainStudent.Registry),
      TrainStudent.publishes run.check = false →
      TrainStudent.train_run run s = (s, 0)) ∧
    TrainStudent.publishes
      (TrainStudent.CalibCheck.calib (87/100) (some (90/100))) = false ∧
    TrainStudent.publishes
      (TrainStudent.CalibCheck.calib (89/100) (some (90/100))) = true := by
  refine ⟨rfl, ?_, ?_, ?_, ?_⟩
  · intro acc_new acc_old
    simp [TrainStudent.publishes]
  · intro run s h
    simp [TrainStudent.train_run, h]
  · simp only [TrainStudent.publishes, TrainStudent.REGRESS_LIMIT]
    norm_num
  · simp only [TrainStudent.publishes, TrainStudent.REGRESS_LIMIT]
    norm_num

/-- Witness for C1: a concrete blocked run (0.87 vs 0.90) leaves the empty
registry untouched and exits 0. -/
theorem C1_regression_gate_witness :
    TrainStudent.train_run
      { check := TrainStudent.CalibCheck.calib (87/100) (some (90/100)),
        model_id := 5, num_samples := 30, test_accuracy := 8/10 }
      TrainStudent.Registry.empty = (TrainStudent.Registry.empty, 0) :=
  C1_regression_gate.2.2.1 _ _
    (by simp only [TrainStudent.publishes, TrainStudent.REGRESS_LIMIT]; norm_num)

/-- C5: with a model loaded, a request served in shadow mode always answers
`execute = true` while the returned confidence is still the (rounded)
maximum class probability of the model on the encoded input; in active mode
`execute` equals the model's boolean verdict. -/
theorem C5_shadow_mode_invariant (st : StudentService.ServiceState)
    (body : StudentService.PredictBody) (lm : StudentService.LoadedModel)
    (h : st.model = some lm) :
    (st.mode = "shadow" →
      (StudentService.predict_route st body).1.execute = true ∧
      (StudentService.predict_route st body).1.confidence =
        StudentService.round3 (StudentService.pyMax (lm.model.predictProbaFn
          (StudentService.features_to_vector body.features
            (body.type.getD "SWITCH_RIGHT"))))) ∧
    (st.mode = "active" →
      (StudentService.predict_route st body).1.execute =
        lm.model.predictFn (StudentService.features_to_vector body.features
          (body.type.getD "SWITCH_RIGHT"))) := by
  constructor
  · intro hmode
    simp [StudentService.predict_route, h, hmode]
  · intro hmode
    simp [StudentService.predict_route, h, hmode]

/-- A concrete model whose raw verdict is `false` (suppress) with class
probabilities 0.3/0.7, used to witness the shadow-mode invariant. -/
def c5_model : StudentService.StudentModel :=
  { predictFn := fun _ => false, predictProbaFn := fun _ => [3/10, 7/10] }

/-- The loaded-model slot wrapping `c5_model`. -/
def c5_loaded : StudentService.LoadedModel :=
  { model := c5_model, version := "v1" }

/-- A concrete shadow-mode serving state holding `c5_model`. -/
def c5_state : StudentService.ServiceState :=
  { model := some c5_loaded, mode := "shadow", total_preds := 0 }

/-- A concrete empty prediction request. -/
def c5_body : StudentService.PredictBody :=
  { features := [], type := none }

/-- Witness for C5: in shadow mode the concrete suppress-voting model still
yields `execute = true`, and the confidence is its rounded max probability. -/
theorem C5_shadow_mode_invariant_witness :
    (StudentService.predict_route c5_state c5_body).1.execute = true ∧
    (StudentService.predict_route c5_state c5_body).1.confidence =
      StudentService.round3 (StudentService.pyMax (c5_loaded.model.predictProbaFn
        (StudentService.features_to_vector c5_body.features
          (c5_body.type.getD "SWITCH_RIGHT")))) :=
  (C5_shadow_mode_invariant c5_state c5_body c5_loaded rfl).1 rfl

/-- C6: when no model is loaded, the predict endpoint answers
`execute = true`, confidence 0.0, model version `none` (echoing the mode),
and leaves the state untouched — the handler is total, it never raises. -/
theorem C6_degraded_mode (st : StudentService.ServiceState)
    (body : StudentService.PredictBody) (h : st.model = none) :
    (StudentService.predict_route st body).1 =
      { execute := true, confidence := 0, model_version := none, mode := st.mode } ∧
    (StudentService.predict_route st body).2 = st := by
  constructor
  · simp [StudentService.predict_route, h]
  · simp [StudentService.predict_route, h]

/-- Witness for C6 at a concrete empty-model state and request. -/
theorem C6_degraded_mode_witness :
    (StudentService.predict_route
        { model := none, mode := "shadow", total_preds := 3 }
        { features := [("handSpan", 1/2)], type := some "OPEN_MENU" }).1 =
      { execute := true, confidence := 0, model_version := none, mode := "shadow" } :=
  (C6_degraded_mode _ _ rfl).1

/-- C10: `_total_preds` increments by exactly one on a model-backed
prediction, is unchanged by a degraded (no-model) prediction and by a status
request, and status reports exactly that counter. -/
theorem C10_total_predictions_counter (st : StudentService.ServiceState)
    (body : StudentService.PredictBody) :
    (∀ lm, st.model = some lm →
      (StudentService.predict_route st body).2.total_preds = st.total_preds + 1) ∧
    (st.model = none →
      (StudentService.predict_route st body).2.total_preds = st.total_preds) ∧
    (StudentService.status_route st).2.total_preds = st.total_preds ∧
    (StudentService.status_route st).1.total_predictions = st.total_preds := by
  refine ⟨?_, ?_, rfl, rfl⟩
  · intro lm h
    simp [StudentService.predict_route, h]
  · intro h
    simp [StudentService.predict_route, h]

/-- Witness for C10: the counter moves from 7 to 8 on a model-backed
prediction and stays 7 on a no-model prediction. -/
theorem C10_total_predictions_counter_witness :
    (StudentService.predict_route
        { model := some { model := c5_model, version := "v1" },
          mode := "active", total_preds := 7 }
        { features := [], type := none }).2.total_preds = 7 + 1 ∧
    (StudentService.predict_route
        { model := none, mode := "active", total_preds := 7 }
        { features := [], type := none }).2.total_preds = 7 :=
  ⟨(C10_total_predictions_counter _ _).1 _ rfl,
   (C10_total_predictions_counter _ _).2.1 rfl⟩

namespace BuildCalibration

lemma mem_TP_not_startsWith_NEG (l : String) (hl : l ∈ TP_LABELS) :
    strStartsWith l "NEG_" = false := by
  fin_cases hl <;> rfl

lemma branch_label_eq_some_one_iff (clips : String → Option EvalClip)
    (r : EvalResult) :
    (∃ g, branch_label clips r = some (1, g)) ↔
      (r.user_label ∈ TP_LABELS ∧ r.cosmos_intentional = some true ∧
       r.cosmos_final_intent = some (lookupIntent r.user_label)) := by
  unfold branch_label
  by_cases htp : r.user_label ∈ TP_LABELS
  · by_cases hint : r.cosmos_intentional = some true
    · by_cases hfi : r.cosmos_final_intent = some (lookupIntent r.user_label)
      · simp [htp, hint, hfi]
      · simp [htp, hint, hfi]
    · simp [htp, hint]
  · by_cases hneg : strStartsWith r.user_label "NEG_"
    · by_cases hint : r.cosmos_intentional = some false
      · simp [htp, hneg, hint]
      · simp [htp, hneg, hint]
    · simp [htp, hneg]

lemma branch_label_eq_some_zero_iff (clips : String → Option EvalClip)
    (r : EvalResult) :
    (∃ g, branch_label clips r = some (0, g)) ↔
      (strStartsWith r.user_label "NEG_" = true ∧
       r.cosmos_intentional = some false) := by
  unfold branch_label
  by_cases htp : r.user_label ∈ TP_LABELS
  · have hns := mem_TP_not_startsWith_NEG _ htp
    by_cases hint : r.cosmos_intentional = some true
    · by_cases hfi : r.cosmos_final_intent = some (lookupIntent r.user_label)
      · simp [htp, hint, hfi, hns]
      · simp [htp, hint, hfi, hns]
    · simp [htp, hint, hns]
  · by_cases hneg : strStartsWith r.user_label "NEG_"
    · by_cases hint : r.cosmos_intentional = some false
      · simp [htp, hneg, hint]
      · simp [htp, hneg, hint]
    · simp [htp, hneg]

lemma process_result_accepted_iff (clips : String → Option EvalClip)
    (r : EvalResult) (li : Nat) (h : r.cosmos_error = false) :
    (∃ rec, process_result clips r = .accepted rec ∧ rec.label = li) ↔
      (featOK clips r = true ∧ ∃ g, branch_label clips r = some (li, g)) := by
  unfold process_result featOK
  simp only [h, Bool.false_eq_true, if_false]
  cases hb : branch_label clips r with
  | none => simp
  | some p =>
    obtain ⟨l, g⟩ := p
    cases hc : clips r.clip_id with
    | none => simp
    | some clip =>
      by_cases hft : featuresTruthy clip.features
      · simp only [hft, if_true]
        simp only [CalibOutcome.accepted.injEq, Option.some.injEq, Prod.mk.injEq,
          true_and]
        constructor
        · rintro ⟨rec, hrec, hlab⟩
          exact ⟨g, by rw [← hrec] at hlab; exact hlab, rfl⟩
        · rintro ⟨g', hl, hg⟩
          exact ⟨_, rfl, hl⟩
      · simp [hft]

end BuildCalibration

/-- C2: for every evaluation result without a teacher-error flag, the
builder accepts with label 1 iff the clip has a usable feature bag, the
human label is one of the four TP labels, the teacher says intentional, and
the teacher's final intent equals the label's mapped intent; it accepts
with label 0 iff the clip has a usable feature bag, the human label starts
with `NEG_`, and the teacher says not intentional; a clip without a feature
bag is never accepted regardless of agreement. -/
theorem C2_calibration_acceptance (clips : String → Option EvalClip)
    (r : BuildCalibration.EvalResult) (h : r.cosmos_error = false) :
    ((∃ rec, BuildCalibration.process_result clips r =
        BuildCalibration.CalibOutcome.accepted rec ∧ rec.label = 1) ↔
      (BuildCalibration.featOK clips r = true ∧
       r.user_label ∈ BuildCalibration.TP_LABELS ∧
       r.cosmos_intentional = some true ∧
       r.cosmos_final_intent = some (BuildCalibration.lookupIntent r.user_label))) ∧
    ((∃ rec, BuildCalibration.process_result clips r =
        BuildCalibration.CalibOutcome.accepted rec ∧ rec.label = 0) ↔
      (BuildCalibration.featOK clips r = true ∧
       strStartsWith r.user_label "NEG_" = true ∧
       r.cosmos_intentional = some false)) ∧
    (BuildCalibration.featOK clips r = false →
      ∀ rec, BuildCalibration.process_result clips r ≠
        BuildCalibration.CalibOutcome.accepted rec) := by
  refine ⟨?_, ?_, ?_⟩
  · rw [BuildCalibration.process_result_accepted_iff clips r 1 h,
      BuildCalibration.branch_label_eq_some_one_iff]
  · rw [BuildCalibration.process_result_accepted_iff clips r 0 h,
      BuildCalibration.branch_label_eq_some_zero_iff]
  · intro hf rec hacc
    have hmem := (BuildCalibration.process_result_accepted_iff clips r rec.label h).mp
      ⟨rec, hacc, rfl⟩
    rw [hf] at hmem
    exact absurd hmem.1 (by simp)

/-- A concrete clip with a feature bag, used in the C2 witness. -/
def c2_clip : EvalClip :=
  { clip_id := "clip_001", features := some [("swipeDisplacement", 1/4)],
    gesture_detected := none }

/-- A concrete clip index holding only `c2_clip`. -/
def c2_clips : String → Option EvalClip :=
  fun i => if i == "clip_001" then some c2_clip else none

/-- A concrete agreeing TP result for `c2_clip`. -/
def c2_result : BuildCalibration.EvalResult :=
  { clip_id := "clip_001", user_label := "TP_OPEN_MENU",
    cosmos_intentional := some true, cosmos_final_intent := some "OPEN_MENU",
    cosmos_error := false }

/-- Witness for C2: the concrete agreeing TP result is accepted with
label 1. -/
theorem C2_calibration_acceptance_witness :
    ∃ rec, BuildCalibration.process_result c2_clips c2_result =
      BuildCalibration.CalibOutcome.accepted rec ∧ rec.label = 1 :=
  (C2_calibration_acceptance c2_clips c2_result rfl).1.mpr
    ⟨rfl, by decide, rfl, rfl⟩

namespace TrainStudent

/-- The teacher response of the C3 record: intентional with final intent
`CLOSE_MENU`, high confidence, known reason. -/
def c3_resp : RespJson :=
  { schema_valid := none, confidence := some (9/10),
    reason_category := some "self_grooming", intentional := some true,
    final_intent := some "CLOSE_MENU" }

/-- The feature bag of the C3 record, whose `gestureType` is `OPEN_MENU` —
a different intent than the teacher's final intent. -/
def c3_features : LogFeatures :=
  { entries := [("swipeDisplacement", 1/3)], gestureType := some "OPEN_MENU" }

/-- A production log record on which the teacher asserted intentional, but
for intent `CLOSE_MENU`, while the logged gesture type is `OPEN_MENU`. -/
def c3_record : VerifierRecord :=
  { response_json := some c3_resp, features := some c3_features,
    proposed_intent := none, event_id := "evt_001" }

/-- The labeled event the distiller produces from `c3_record`. -/
def c3_event : LabeledEvent :=
  { features := c3_features, gesture_type := "OPEN_MENU", label := 1,
    cosmos_conf := 9/10, reason := "self_grooming", event_id := "evt_001" }

lemma c3_record_accepted :
    process_record c3_record = DistillOutcome.accepted c3_event := by
  unfold process_record c3_record c3_resp c3_features c3_event
  norm_num [logFeaturesTruthy, pyOrStr]
  rw [if_neg (by decide)]
  rfl

end TrainStudent

/-- Counterexample for C3: the claim — an accepted record's label is 1 iff
the teacher asserted intentional *for the matching positive intent* — fails
on `c3_record`: the distiller labels it 1 although the teacher's final
intent (`CLOSE_MENU`) differs from the event's gesture type (`OPEN_MENU`);
`load_labeled_events` never consults `final_intent`. -/
theorem C3_distiller_label_counterexample :
    ¬ (∀ e, TrainStudent.process_record TrainStudent.c3_record =
          TrainStudent.DistillOutcome.accepted e →
        (e.label = 1 ↔
          (TrainStudent.c3_record.response_json.bind
            (fun resp => resp.intentional)) = some true ∧
          (TrainStudent.c3_record.response_json.bind
            (fun resp => resp.final_intent)) = some e.gesture_type)) := by
  intro hclaim
  have h1 := (hclaim TrainStudent.c3_event TrainStudent.c3_record_accepted).mp rfl
  have h3 := h1.2
  simp [TrainStudent.c3_record, TrainStudent.c3_resp, TrainStudent.c3_event] at h3

/-- C3 amended: for every record the distiller accepts, the label is 1 iff
the teacher's `intentional` flag is true and 0 iff it is false — the
teacher's final intent is not consulted at all. -/
theorem C3_distiller_label_amended (rec : TrainStudent.VerifierRecord)
    (e : TrainStudent.LabeledEvent)
    (h : TrainStudent.process_record rec = TrainStudent.DistillOutcome.accepted e) :
    (e.label = 1 ↔
      (rec.response_json.bind (fun resp => resp.intentional)) = some true) ∧
    (e.label = 0 ↔
      (rec.response_json.bind (fun resp => resp.intentional)) = some false) := by
  cases hrj : rec.response_json with
  | none =>
    unfold TrainStudent.process_record at h
    rw [hrj] at h
    simp at h
  | some resp =>
    unfold TrainStudent.process_record at h
    rw [hrj] at h
    simp only [Option.isNone_some, Bool.or_false, Option.getD_some] at h
    split at h
    · exact absurd h (by simp)
    · split at h
      · exact absurd h (by simp)
      · split at h
        · exact absurd h (by simp)
        · split at h
          · exact absurd h (by simp)
          · split at h
            · exact absurd h (by simp)
            · exact absurd h (by simp)
            · rename_i b g hint hgt
              injection h with he
              subst he
              cases b <;> simp [hint]

/-- Witness for the amended C3 theorem at the concrete record `c3_record`. -/
theorem C3_distiller_label_amended_witness :
    TrainStudent.c3_event.label = 1 ↔
      (TrainStudent.c3_record.response_json.bind
        (fun resp => resp.intentional)) = some true :=
  (C3_distiller_label_amended TrainStudent.c3_record TrainStudent.c3_event
    TrainStudent.c3_record_accepted).1

namespace TrainStudent

/-- Invariant of the model registry maintained by training runs: versions
number the artifacts 1,2,…; `current` is the most recently written
artifact; the log holds one record per artifact. -/
def RegInv (s : Registry) : Prop :=
  (∀ i (hi : i < s.versioned.length), (s.versioned.get ⟨i, hi⟩).version = i + 1) ∧
  s.current = s.versioned.getLast? ∧
  s.training_log.length = s.versioned.length

lemma regInv_empty : RegInv Registry.empty := by
  refine ⟨?_, rfl, rfl⟩
  intro i hi
  simp [Registry.empty] at hi

lemma train_run_preserves (run : RunInput) (s : Registry) (h : RegInv s) :
    RegInv (train_run run s).1 ∧
    (train_run run s).1.versioned.length =
      s.versioned.length + (if publishes run.check then 1 else 0) ∧
    s.training_log <+: (train_run run s).1.training_log := by
  by_cases hp : publishes run.check
  · obtain ⟨hv, hc, hl⟩ := h
    refine ⟨⟨?_, ?_, ?_⟩, ?_, ?_⟩
    · intro i hi
      simp only [train_run, hp, if_true, List.get_eq_getElem] at hi ⊢
      simp only [List.length_append, List.length_singleton] at hi
      rcases Nat.lt_or_ge i s.versioned.length with hlt | hge
      · rw [List.getElem_append_left hlt]
        have := hv i hlt
        simpa using this
      · have hieq : i = s.versioned.length := by omega
        subst hieq
        rw [List.getElem_concat_length]
        · rfl
        · rfl
    · simp [train_run, hp, List.getLast?_concat]
    · simp [train_run, hp, hl]
    · simp [train_run, hp]
    · simp only [train_run, hp, if_true]
      exact ⟨_, rfl⟩
  · simp [train_run, hp, h, List.prefix_refl]

lemma runAll_inv (rs : List RunInput) (s : Registry) (h : RegInv s) :
    RegInv (runAll rs s) ∧
    (runAll rs s).versioned.length =
      s.versioned.length + (rs.filter (fun r => publishes r.check)).length := by
  induction rs generalizing s with
  | nil => simpa [runAll] using h
  | cons r rs ih =>
    obtain ⟨hinv, hlen, -⟩ := train_run_preserves r s h
    obtain ⟨hinv', hlen'⟩ := ih (train_run r s).1 hinv
    have hrw : runAll (r :: rs) s = runAll rs (train_run r s).1 := rfl
    refine ⟨hrw ▸ hinv', ?_⟩
    rw [hrw, hlen', hlen]
    by_cases hp : publishes r.check <;> (simp [hp]; try omega)

end TrainStudent

/-- C7: starting from an empty model directory, after any sequence of
training runs the number of versioned artifacts equals the number of
gate-passing runs, the i-th artifact carries version i+1 (so each accepted
run's version is the count of previously existing artifacts plus one),
`current` is the most recently accepted bundle, the training log holds one
audit record per accepted run and is only ever extended (never truncated),
and a gate-rejected run changes nothing. -/
theorem C7_registry_versioning (rs : List TrainStudent.RunInput) :
    (TrainStudent.runAll rs TrainStudent.Registry.empty).versioned.length =
      (rs.filter (fun r => TrainStudent.publishes r.check)).length ∧
    (∀ i (hi : i <
        (TrainStudent.runAll rs TrainStudent.Registry.empty).versioned.length),
      ((TrainStudent.runAll rs TrainStudent.Registry.empty).versioned.get
        ⟨i, hi⟩).version = i + 1) ∧
    (TrainStudent.runAll rs TrainStudent.Registry.empty).current =
      (TrainStudent.runAll rs TrainStudent.Registry.empty).versioned.getLast? ∧
    (TrainStudent.runAll rs TrainStudent.Registry.empty).training_log.length =
      (TrainStudent.runAll rs TrainStudent.Registry.empty).versioned.length ∧
    (∀ (run : TrainStudent.RunInput) (s : TrainStudent.Registry),
      s.training_log <+: ((TrainStudent.train_run run s).1).training_log) ∧
    (∀ (run : TrainStudent.RunInput) (s : TrainStudent.Registry),
      TrainStudent.publishes run.check = false →
      (TrainStudent.train_run run s).1 = s) := by
  obtain ⟨⟨hv, hc, hl⟩, hlen⟩ :=
    TrainStudent.runAll_inv rs TrainStudent.Registry.empty TrainStudent.regInv_empty
  refine ⟨?_, hv, hc, hl, ?_, ?_⟩
  · simpa [TrainStudent.Registry.empty] using hlen
  · intro run s
    by_cases hp : TrainStudent.publishes run.check
    · simp only [TrainStudent.train_run, hp, if_true]
      exact ⟨_, rfl⟩
    · simp only [TrainStudent.train_run, hp, Bool.false_eq_true, if_false]
      exact List.prefix_refl _
  · intro run s hp
    simp [TrainStudent.train_run, hp]

/-- A concrete first-run input (no calibration set: accepted). -/
def c7_run : TrainStudent.RunInput :=
  { check := TrainStudent.CalibCheck.noCalib, model_id := 1, num_samples := 25,
    test_accuracy := 9/10 }

/-- A concrete gate-blocked run input (0.87 against current 0.90). -/
def c7_bad : TrainStudent.RunInput :=
  { check := TrainStudent.CalibCheck.calib (87/100) (some (90/100)),
    model_id := 2, num_samples := 25, test_accuracy := 9/10 }

/-- Witness for C7: after one accepted run from the empty registry the only
artifact carries version 1, and a concrete rejected run changes nothing. -/
theorem C7_registry_versioning_witness :
    ((TrainStudent.runAll [c7_run] TrainStudent.Registry.empty).versioned.get
      ⟨0, by decide⟩).version = 0 + 1 ∧
    (TrainStudent.train_run c7_bad TrainStudent.Registry.empty).1 =
      TrainStudent.Registry.empty :=
  ⟨(C7_registry_versioning [c7_run]).2.1 0 (by decide),
   (C7_registry_versioning [c7_run]).2.2.2.2.2 c7_bad TrainStudent.Registry.empty
     (by simp only [c7_bad, TrainStudent.publishes, TrainStudent.REGRESS_LIMIT]
         norm_num)⟩

lemma dictLookup_cons (k1 : String) (v1 : EvalClip) (t : List (String × EvalClip))
    (k : String) :
    dictLookup ((k1, v1) :: t) k =
      if k1 == k then some v1 else dictLookup t k := by
  by_cases h : k1 == k <;> simp [dictLookup, List.find?_cons, h]

lemma dictLookup_dictInsert (d : List (String × EvalClip)) (kk : String)
    (v : EvalClip) (k : String) :
    dictLookup (dictInsert d kk v) k =
      if kk == k then some v else dictLookup d k := by
  induction d with
  | nil =>
    by_cases h : kk == k <;> simp [dictInsert, dictLookup, List.find?, h]
  | cons p t ih =>
    obtain ⟨k1, v1⟩ := p
    by_cases h1 : k1 == kk
    · have hk : k1 = kk := eq_of_beq h1
      subst hk
      simp only [dictInsert, h1, if_true, dictLookup_cons]
      by_cases h2 : k1 == k <;> simp [h2, dictLookup_cons]
    · simp only [dictInsert, h1, Bool.false_eq_true, if_false]
      rw [dictLookup_cons, dictLookup_cons, ih]
      by_cases h2 : k1 == k
      · have hk1 : k1 = k := eq_of_beq h2
        subst hk1
        have hkk : (kk == k1) = false := by
          rw [beq_eq_false_iff_ne]
          intro he
          exact absurd (he ▸ h1) (by simp)
        simp [h2, hkk]
      · simp [h2]

lemma or_getLast?_cons (a : EvalClip) (l : List EvalClip) (o : Option EvalClip) :
    ((a :: l).getLast?).or o = (l.getLast?).or (some a) := by
  cases hl : l.getLast? with
  | none =>
    have : l = [] := List.getLast?_eq_none_iff.mp hl
    subst this
    rfl
  | some y =>
    have hcons : (a :: l).getLast? = some y := by
      cases l with
      | nil => simp at hl
      | cons b t => rw [List.getLast?_cons_cons]; exact hl
    rw [hcons]
    rfl

lemma lookup_foldl_insert (l : List EvalClip) (d : List (String × EvalClip))
    (k : String) :
    dictLookup (l.foldl (fun d c => dictInsert d c.clip_id c) d) k =
      ((l.filter (fun c => c.clip_id == k)).getLast?).or (dictLookup d k) := by
  induction l generalizing d with
  | nil => rfl
  | cons c t ih =>
    by_cases hc : c.clip_id == k
    · simp only [List.foldl_cons, ih, dictLookup_dictInsert, hc, if_true,
        List.filter_cons, or_getLast?_cons]
    · simp only [List.foldl_cons, ih, dictLookup_dictInsert, hc, if_false,
        List.filter_cons, Bool.false_eq_true]

lemma keys_dictInsert (d : List (String × EvalClip)) (k : String) (v : EvalClip) :
    (dictInsert d k v).map Prod.fst =
      if k ∈ d.map Prod.fst then d.map Prod.fst else d.map Prod.fst ++ [k] := by
  induction d with
  | nil => simp [dictInsert]
  | cons p t ih =>
    obtain ⟨k1, v1⟩ := p
    by_cases h : k1 == k
    · have hk : k1 = k := eq_of_beq h
      subst hk
      simp [dictInsert, h]
    · have hne : ¬ k1 = k := by simpa using h
      simp only [dictInsert, h, Bool.false_eq_true, if_false, List.map_cons, ih]
      by_cases hm : k ∈ t.map Prod.fst
      · simp [hm, hne, Ne.symm hne]
      · simp [hm, hne, Ne.symm hne]

lemma nodup_keys_dictInsert (d : List (String × EvalClip)) (k : String)
    (v : EvalClip) (h : (d.map Prod.fst).Nodup) :
    ((dictInsert d k v).map Prod.fst).Nodup := by
  rw [keys_dictInsert]
  by_cases hm : k ∈ d.map Prod.fst
  · simpa [hm] using h
  · simp only [hm, if_false]
    simp [List.nodup_append, h, hm]

lemma nodup_keys_foldl (l : List EvalClip) (d : List (String × EvalClip))
    (h : (d.map Prod.fst).Nodup) :
    (((l.foldl (fun d c => dictInsert d c.clip_id c) d)).map Prod.fst).Nodup := by
  induction l generalizing d with
  | nil => exact h
  | cons c t ih => exact ih _ (nodup_keys_dictInsert _ _ _ h)

/-- A clip id occurring both in a per-clip file and in a session bundle. -/
def c8_clip_a : EvalClip :=
  { clip_id := "clip_dup", features := none, gesture_detected := none }

/-- A different clip carrying the same id as `c8_clip_a`. -/
def c8_clip_b : EvalClip :=
  { clip_id := "clip_dup", features := some [("handSpan", 1)],
    gesture_detected := some "OPEN_MENU" }

/-- Counterexample for C8: the evaluation harness's `load_clips` does not
merge by clip identity — loading a per-clip file holding `c8_clip_a` and a
session bundle holding `c8_clip_b` yields a working set with two entries
bearing the same clip id. -/
theorem C8_harness_merge_counterexample :
    EvalCosmos.load_clips [ClipJson.single c8_clip_a] [ClipJson.array [c8_clip_b]] =
      [c8_clip_a, c8_clip_b] ∧
    c8_clip_a.clip_id = c8_clip_b.clip_id ∧
    ¬ (((EvalCosmos.load_clips [ClipJson.single c8_clip_a]
        [ClipJson.array [c8_clip_b]]).map (fun c => c.clip_id)).Nodup) := by
  refine ⟨rfl, rfl, ?_⟩
  simp [EvalCosmos.load_clips, clipsOfFile, c8_clip_a, c8_clip_b]

/-- C8 amended: it is the calibration builder's clip index
(`load_clips_by_id`) that is merged by clip identity — its keys are
duplicate-free and looking up an id returns the last-loaded clip bearing
that id (later sources override earlier ones); the evaluation harness's
`load_clips`, by contrast, is the plain concatenation of its sources. -/
theorem C8_clip_merge_amended (clipFiles sessionFiles : List ClipJson) :
    ((BuildCalibration.load_clips_by_id clipFiles sessionFiles).map Prod.fst).Nodup ∧
    (∀ k, dictLookup (BuildCalibration.load_clips_by_id clipFiles sessionFiles) k =
      (((clipFiles.map clipsOfFile).flatten ++
        (sessionFiles.map clipsOfSessionFile).flatten).filter
        (fun c => c.clip_id == k)).getLast?) ∧
    EvalCosmos.load_clips clipFiles sessionFiles =
      (clipFiles.map clipsOfFile).flatten ++
      (sessionFiles.map clipsOfFile).flatten := by
  refine ⟨?_, ?_, rfl⟩
  · exact nodup_keys_foldl _ [] (by simp)
  · intro k
    unfold BuildCalibration.load_clips_by_id
    rw [lookup_foldl_insert]
    simp [dictLookup, Option.or_none]

lemma BuildCalibration.calibOutcome_counted_once
    (o : BuildCalibration.CalibOutcome) :
    (if BuildCalibration.isAccepted o then 1 else 0) +
    (if BuildCalibration.isTeacherError o then 1 else 0) +
    (if BuildCalibration.isDisagreement o then 1 else 0) +
    (if BuildCalibration.isMissingFeatures o then 1 else 0) = 1 := by
  cases o <;> rfl

/-- C9: the calibration builder's four outcome counters partition the
result list — every result is counted exactly once among accepted,
teacher-error, disagreement and missing-features, so their sum is the
number of results; and a result whose human label is neither a TP label nor
a NEG label lands in the disagreement counter. -/
theorem C9_outcome_partition (clips : String → Option EvalClip)
    (results : List BuildCalibration.EvalResult) :
    (results.countP
        (fun r => BuildCalibration.isAccepted
          (BuildCalibration.process_result clips r)) +
     results.countP
        (fun r => BuildCalibration.isTeacherError
          (BuildCalibration.process_result clips r)) +
     results.countP
        (fun r => BuildCalibration.isDisagreement
          (BuildCalibration.process_result clips r)) +
     results.countP
        (fun r => BuildCalibration.isMissingFeatures
          (BuildCalibration.process_result clips r)) = results.length) ∧
    (∀ r : BuildCalibration.EvalResult, r.cosmos_error = false →
      r.user_label ∉ BuildCalibration.TP_LABELS →
      strStartsWith r.user_label "NEG_" = false →
      BuildCalibration.process_result clips r =
        BuildCalibration.CalibOutcome.disagreement) := by
  constructor
  · induction results with
    | nil => rfl
    | cons r t ih =>
      have hpart :=
        BuildCalibration.calibOutcome_counted_once
          (BuildCalibration.process_result clips r)
      simp only [List.countP_cons, List.length_cons]
      omega
  · intro r herr htp hneg
    have hb : BuildCalibration.branch_label clips r = none := by
      unfold BuildCalibration.branch_label
      simp [htp, hneg]
    unfold BuildCalibration.process_result
    simp [herr, hb]

/-- A concrete result whose human label is neither TP nor NEG. -/
def c9_result : BuildCalibration.EvalResult :=
  { clip_id := "c9", user_label := "unlabeled",
    cosmos_intentional := some true, cosmos_final_intent := some "OPEN_MENU",
    cosmos_error := false }

/-- Witness for C9: the `unlabeled` result is counted as a disagreement. -/
theorem C9_outcome_partition_witness :
    BuildCalibration.process_result (fun _ => none) c9_result =
      BuildCalibration.CalibOutcome.disagreement :=
  (C9_outcome_partition (fun _ => none) [c9_result]).2 c9_result rfl
    (by decide) (by decide)
